import Mathlib

/-
Shallow embedding of the donation reconciliation core of the repository
(src/src/controllers/DonationController.ts and the webhook controller file
src/unnamed/part_000, the `/donate` controller).  Stores are modelled as
in-memory lists, provider amounts as integers of minor units, converted
amounts as rationals, and JavaScript `undefined` as `Option.none`.
Collaborators that are not part of the repository sources (encryption,
Stripe client, repositories, the action wrappers) are modelled from the
spec and marked as such on their definitions.
-/

namespace GivingApi

/-- Truthiness of a JavaScript string-or-undefined value: `undefined` and
the empty string are falsy, every other string is truthy. -/
def truthyStr : Option String → Bool
  | none => false
  | some s => !(s == "")

/-- Truthiness of a JavaScript number-or-undefined value: `undefined` and
`0` are falsy (NaN inputs are not modelled). -/
def truthyInt : Option Int → Bool
  | none => false
  | some n => !(n == 0)

/-- JavaScript `a || b` on number-or-undefined values: the first operand
when truthy, otherwise the second. -/
def jsOrInt (a b : Option Int) : Option Int :=
  if truthyInt a then a else b

/-- JavaScript string coercion as performed by `+` concatenation:
`undefined` becomes the string "undefined". -/
def jsToStr : Option String → String
  | none => "undefined"
  | some s => s

/-- Test whether the second character list starts with the first. -/
def startsWith : List Char → List Char → Bool
  | [], _ => true
  | _ :: _, [] => false
  | p :: ps, c :: cs => p == c && startsWith ps cs

/-- Test whether a character list occurs as a contiguous run inside
another. -/
def hasSubstr (pat : List Char) : List Char → Bool
  | [] => startsWith pat []
  | c :: cs => startsWith pat (c :: cs) || hasSubstr pat cs

/-- ASCII lower-casing of one character (the case folding JavaScript
`toLowerCase` performs on the ASCII range). -/
def lowerAscii (c : Char) : Char :=
  if 65 ≤ c.toNat && c.toNat ≤ 90 then Char.ofNat (c.toNat + 32) else c

/-- JavaScript `s.toLowerCase().includes('subscription')` on an optional
string (the `?.` chain yields a falsy `undefined` when absent). -/
def descHasSubscription : Option String → Bool
  | none => false
  | some s => hasSubstr "subscription".data (s.data.map lowerAscii)

/-- Lookup in a JavaScript object used as a string-keyed table; absent
keys yield `undefined` (`none`). -/
def assocLookup {α : Type} (l : List (String × α)) (k : String) : Option α :=
  match l with
  | [] => none
  | p :: rest => if p.1 == k then some p.2 else assocLookup rest k

/-- Failures a request task can end in.  `typeError` stands for a thrown
JavaScript TypeError (property access on `undefined`), `invalidSignature`
for a rejected webhook signature, `providerError` for a failed Stripe API
round trip and `persistenceFailure` for a rejected repository save. -/
inductive JsErr where
  | invalidSignature
  | typeError
  | providerError
  | persistenceFailure
deriving BEq, DecidableEq, Repr

/- ------------------------------------------------------------------ -/
/- Data model (from src and, for the stored rows, the models the      -/
/- controller constructs at lines 66, 74, 111, 116 and 129).          -/
/- ------------------------------------------------------------------ -/

/-- Gateway credential row for a tenant (fields read by the controller). -/
structure Gateway where
  churchId : String
  privateKey : String
  webhookKey : String
  productId : String
deriving BEq, DecidableEq, Repr

/-- Customer row: maps a provider customer id to a person (field
`personId` read at line 74). -/
structure Customer where
  churchId : String
  id : String
  personId : String
deriving BEq, DecidableEq, Repr

/-- Event log entry exactly as constructed at line 66 of the webhook
controller. -/
structure EventLog where
  id : String
  churchId : String
  customerId : Option String
  provider : String
  eventType : String
  status : Option String
  message : Option String
  created : Int
deriving BEq, DecidableEq, Repr

/-- Donation row as constructed at line 74 (webhook) or received in the
`/donate/log` body; `id` and `batchId` are filled in by `logDonation`. -/
structure Donation where
  id : Option String := none
  churchId : String
  personId : Option String := none
  amount : Option Rat := none
  method : Option String := none
  methodDetails : Option String := none
  donationDate : Int := 0
  batchId : Option String := none
deriving BEq, DecidableEq, Repr

/-- Fund donation row exactly as constructed at line 129. -/
structure FundDonation where
  churchId : String
  amount : Rat
  donationId : Option String
  fundId : Option String
deriving BEq, DecidableEq, Repr

/-- Fund record of shape `{id, amount}` as carried in fund metadata, the
`/donate/log` body and subscription bodies.  The `id` field is optional
because `logDonation` also receives stored SubscriptionFund rows, which
carry no `id` field, so reading `.id` off them yields `undefined`. -/
structure FundRec where
  id : Option String := none
  amount : Rat
deriving BEq, DecidableEq, Repr

/-- Subscription row as constructed at line 111. -/
structure Subscription where
  id : String
  churchId : String
  personId : String
  customerId : String
deriving BEq, DecidableEq, Repr

/-- Subscription fund row as constructed at line 116. -/
structure SubscriptionFund where
  churchId : String
  subscriptionId : String
  fundId : Option String
  amount : Rat
deriving BEq, DecidableEq, Repr

/-- Donation batch row (only `id` and the owning tenant are read). -/
structure DonationBatch where
  id : String
  churchId : String
deriving BEq, DecidableEq, Repr

/-- Modelled from the spec: the storage the repositories operate on
(storage repositories are collaborators outside src).  `nextId` feeds
generated row ids. -/
structure Db where
  gateways : List Gateway := []
  customers : List Customer := []
  eventLogs : List EventLog := []
  donations : List Donation := []
  fundDonations : List FundDonation := []
  subscriptions : List Subscription := []
  subscriptionFunds : List SubscriptionFund := []
  batches : List DonationBatch := []
  nextId : Nat := 0
deriving BEq, DecidableEq, Repr

/- ------------------------------------------------------------------ -/
/- Provider event payloads (Stripe-shaped, fields the code reads).    -/
/- ------------------------------------------------------------------ -/

/-- Outcome sub-object of a charge payload (only `seller_message` read). -/
structure Outcome where
  seller_message : Option String
deriving BEq, DecidableEq, Repr

/-- Type-specific payment-method sub-object (only `last4` read). -/
structure SubObj where
  last4 : Option String
deriving BEq, DecidableEq, Repr

/-- The `payment_method_details` object: its `type` string and its
string-keyed type-specific sub-objects. -/
structure PMDetails where
  type : String
  sub : List (String × SubObj)
deriving BEq, DecidableEq, Repr

/-- Metadata object: `funds` holds the JSON-parsed content of a truthy
`metadata.funds` string (a JSON-encoded list of `{id, amount}`), `none`
when the field is absent or falsy. -/
structure Metadata where
  funds : Option (List FundRec)
deriving BEq, DecidableEq, Repr

/-- Fields of `stripeEvent.data.object` destructured at lines 44 and 45. -/
structure EventData where
  created : Int := 0
  customer : Option String := none
  status : Option String := none
  amount : Option Int := none
  metadata : Option Metadata := none
  failure_message : Option String := none
  outcome : Option Outcome := none
  payment_method_details : Option PMDetails := none
  amount_paid : Option Int := none
  subscription : Option String := none
  billing_reason : Option String := none
  charge : Option String := none
  description : Option String := none
deriving BEq, DecidableEq, Repr

/-- Verified provider event: id, type and the nested payload object. -/
structure StripeEvent where
  id : String
  type : String
  dataObject : EventData
deriving BEq, DecidableEq, Repr

/-- Charge detail returned by the provider's getCharge (only the
`payment_method_details` field is read, at line 50). -/
structure ChargeData where
  payment_method_details : Option PMDetails
deriving BEq, DecidableEq, Repr

/-- Payment details object built by `subscribe` (line 106) and passed to
the provider; an opaque pass-through for this core. -/
structure PaymentDetails where
  payment_method_id : Option String := none
  amount : Option Rat := none
  currency : Option String := none
  customer : Option String := none
  type : Option String := none
  billing_cycle_anchor : Option Int := none
  proration_behavior : Option String := none
  interval : Option String := none
  productId : Option String := none
deriving BEq, DecidableEq, Repr

/-- Modelled from the spec: the external collaborators of the controller
that are outside src — the secret codec (`decrypt`), the provider client
(`verifySignature`, `getCharge`, `createSubscription`) and a fault
injection flag standing for a rejected donation save
(`PersistenceFailure` of spec section 7). -/
structure Env where
  decrypt : String → String
  verifySignature : String → String → String → String → Option StripeEvent
  getCharge : String → String → Option ChargeData
  createSubscription : String → PaymentDetails → String
  failDonationSave : Bool := false

/- ------------------------------------------------------------------ -/
/- Repositories.  All are collaborators outside src, modelled from    -/
/- the spec's interface descriptions (section 6), tenant-scoped.      -/
/- ------------------------------------------------------------------ -/

/-- Modelled from the spec: `gateway.loadAll(churchId)`. -/
def gatewayLoadAll (churchId : String) (db : Db) : List Gateway :=
  db.gateways.filter (fun g => g.churchId == churchId)

/-- Modelled from the spec: `eventLog.load(churchId, eventId)` — lookup
by tenant and provider event id. -/
def eventLogLoad (churchId eventId : String) (db : Db) : Option EventLog :=
  db.eventLogs.find? (fun l => l.churchId == churchId && l.id == eventId)

/-- Modelled from the spec: `eventLog.create(entry)` — append-only. -/
def eventLogCreate (entry : EventLog) (db : Db) : Db :=
  { db with eventLogs := db.eventLogs ++ [entry] }

/-- Modelled from the spec: `customer.load(churchId, customerId)`. -/
def customerLoad (churchId : String) (customer : Option String) (db : Db) :
    Option Customer :=
  db.customers.find? (fun c => c.churchId == churchId && some c.id == customer)

/-- Modelled from the spec:
`subscriptionFund.loadBySubscriptionId(churchId, subscriptionId)`. -/
def subscriptionFundLoadBySubscriptionId (churchId : String)
    (subscription : Option String) (db : Db) : List SubscriptionFund :=
  db.subscriptionFunds.filter
    (fun sf => sf.churchId == churchId && some sf.subscriptionId == subscription)

/-- Modelled from the spec: `donationBatch.getOrCreateCurrent(churchId)`
— return the tenant's current batch, creating one when none exists. -/
def donationBatchGetOrCreateCurrent (churchId : String) (db : Db) :
    DonationBatch × Db :=
  match db.batches.find? (fun b => b.churchId == churchId) with
  | some b => (b, db)
  | none =>
    let b : DonationBatch := { id := toString db.nextId, churchId := churchId }
    (b, { db with batches := db.batches ++ [b], nextId := db.nextId + 1 })

/-- Modelled from the spec: `donation.save` — assigns a generated id and
appends the row; `env.failDonationSave` injects a `PersistenceFailure`. -/
def donationSave (env : Env) (d : Donation) (db : Db) :
    Except JsErr (Donation × Db) :=
  if env.failDonationSave then .error .persistenceFailure
  else
    let saved := { d with id := some (toString db.nextId) }
    .ok (saved, { db with donations := db.donations ++ [saved],
                          nextId := db.nextId + 1 })

/- ------------------------------------------------------------------ -/
/- Controller code (translated from src, DonateController).           -/
/- ------------------------------------------------------------------ -/

/-- Private helper `loadPrivateKey` (lines 135-138): empty string when
the tenant has no gateway, otherwise the decrypted private key of the
first gateway. -/
def loadPrivateKey (env : Env) (churchId : String) (db : Db) : String :=
  match gatewayLoadAll churchId db with
  | [] => ""
  | g :: _ => env.decrypt g.privateKey

/-- Private helper `logDonation` (lines 123-133): obtain the current
batch, stamp the donation with its id, save the donation, then save one
FundDonation per fund record (reading `.id` and `.amount` off each) and
return the saved fund donations. -/
def logDonation (env : Env) (donationData : Donation) (fundData : List FundRec)
    (db : Db) : Except JsErr (List FundDonation) × Db :=
  let bp := donationBatchGetOrCreateCurrent donationData.churchId db
  let stamped := { donationData with batchId := some bp.1.id }
  match donationSave env stamped bp.2 with
  | .error e => (.error e, bp.2)
  | .ok (donation, db2) =>
    let fds := fundData.map (fun fund =>
      ({ churchId := donation.churchId, amount := fund.amount,
         donationId := donation.id, fundId := fund.id } : FundDonation))
    (.ok fds, { db2 with fundDonations := db2.fundDonations ++ fds })

/-- Handler of POST `/donate/log` (lines 12-20).  The result is the HTTP
status the anonymous wrapper responds with.  Note the source does not
`await` the `logDonation` call (line 18), so its outcome — including a
persistence failure — never reaches the response. -/
def log (env : Env) (donation : Donation) (fundData : FundRec) (db : Db) :
    Except JsErr Nat × Db :=
  let secretKey := loadPrivateKey env donation.churchId db
  if secretKey == "" then (.ok 401, db)
  else
    let r := logDonation env donation [fundData] db
    (.ok 200, r.2)

/-- Lines 47-51: take `payment_method_details` from the event, or from
the charge fetched by id when the event carries a truthy `charge`
reference (invoice.paid events). -/
def resolvePaymentMethodDetails (env : Env) (secretKey : String)
    (e : EventData) : Except JsErr (Option PMDetails) :=
  match e.charge with
  | none => .ok e.payment_method_details
  | some c =>
    if c == "" then .ok e.payment_method_details
    else
      match env.getCharge secretKey c with
      | none => .error .providerError
      | some cd => .ok cd.payment_method_details

/-- Fixed payment-method-type table of line 54. -/
def methodTypes : List (String × String) :=
  [("ach_debit", "ACH Debit"), ("card", "Card")]

/-- Lines 53-57: method label via the fixed table (absent keys yield
`undefined`), detail via `paymentMethodDetails[paymentType].last4`.  A
thrown TypeError arises when `paymentMethodDetails` itself or the
type-named sub-object is `undefined`; an absent table entry alone does
not throw. -/
def extractPaymentDetails (pmdOpt : Option PMDetails) :
    Except JsErr (Option String × Option String) :=
  match pmdOpt with
  | none => .error .typeError
  | some pmd =>
    let method := assocLookup methodTypes pmd.type
    match assocLookup pmd.sub pmd.type with
    | none => .error .typeError
    | some so => .ok (method, so.last4)

/-- Lines 64-65: event log message.  `billing_reason + ' ' + status`
when the billing reason is truthy; otherwise
`failure_message + ' ' + outcome.seller_message` when a failure message
is truthy, else the raw `outcome.seller_message` — throwing when
`outcome` is `undefined` in that branch. -/
def messageOf (e : EventData) : Except JsErr (Option String) :=
  if truthyStr e.billing_reason then
    .ok (some (jsToStr e.billing_reason ++ " " ++ jsToStr e.status))
  else
    match e.outcome with
    | none => .error .typeError
    | some o =>
      if truthyStr e.failure_message then
        .ok (some (jsToStr e.failure_message ++ " " ++ jsToStr o.seller_message))
      else .ok o.seller_message

/-- Lines 38-77 of the webhook handler: everything after signature
verification, operating on the verified event. -/
def handleVerifiedEvent (env : Env) (churchId : String) (secretKey : String)
    (stripeEvent : StripeEvent) (db : Db) : Except JsErr Nat × Db :=
  let e := stripeEvent.dataObject
  -- line 41: subscription context detection
  let subscriptionEvent := truthyStr e.subscription || descHasSubscription e.description
  -- line 42: suppress charge.succeeded of subscription charges
  if stripeEvent.type == "charge.succeeded" && subscriptionEvent then (.ok 200, db)
  else
    match resolvePaymentMethodDetails env secretKey e with
    | .error er => (.error er, db)
    | .ok pmdOpt =>
      match extractPaymentDetails pmdOpt with
      | .error er => (.error er, db)
      | .ok md =>
        -- line 59: Unix seconds to milliseconds
        let donationDate := e.created * 1000
        -- lines 62-68: log the event when its id is new for the tenant
        let logged : Except JsErr Db :=
          match eventLogLoad churchId stripeEvent.id db with
          | some _ => .ok db
          | none =>
            match messageOf e with
            | .error er => .error er
            | .ok message =>
              .ok (eventLogCreate
                { id := stripeEvent.id, churchId := churchId,
                  customerId := e.customer, provider := "Stripe",
                  eventType := stripeEvent.type, status := e.status,
                  message := message, created := donationDate } db)
        match logged with
        | .error er => (.error er, db)
        | .ok db1 =>
          -- lines 71-77: donation side effect for recognized event types
          if stripeEvent.type == "charge.succeeded" || stripeEvent.type == "invoice.paid" then
            let donationAmount := (jsOrInt e.amount e.amount_paid).map
              (fun c => (c : Rat) / 100)
            match customerLoad churchId e.customer db1 with
            | none => (.error .typeError, db1)
            | some customerData =>
              let donation : Donation :=
                { churchId := churchId, personId := some customerData.personId,
                  amount := donationAmount, method := md.1,
                  methodDetails := md.2, donationDate := donationDate }
              let fundsRes : Except JsErr (List FundRec) :=
                match e.metadata with
                | none => .error .typeError
                | some m =>
                  match m.funds with
                  | some l => .ok l
                  | none =>
                    .ok ((subscriptionFundLoadBySubscriptionId churchId
                        e.subscription db1).map
                      (fun sf => ({ id := none, amount := sf.amount } : FundRec)))
              match fundsRes with
              | .error er => (.error er, db1)
              | .ok funds =>
                match logDonation env donation funds db1 with
                | (.error er, db2) => (.error er, db2)
                | (.ok _, db2) => (.ok 200, db2)
          else (.ok 200, db1)

/-- Handler of POST `/donate/webhook/:provider` (lines 22-79, named
`init` in the source): credential resolution, signature verification,
then the verified-event pipeline. -/
def init (env : Env) (churchId rawBody sig : String) (db : Db) :
    Except JsErr Nat × Db :=
  match gatewayLoadAll churchId db with
  | [] => (.ok 401, db)
  | gateway :: _ =>
    let secretKey := env.decrypt gateway.privateKey
    if secretKey == "" then (.ok 401, db)
    else
      let webhookKey := env.decrypt gateway.webhookKey
      match env.verifySignature secretKey rawBody sig webhookKey with
      | none => (.error .invalidSignature, db)
      | some stripeEvent => handleVerifiedEvent env churchId secretKey stripeEvent db

/-- Modelled from the spec: the anonymous action wrapper's mapping of a
handler outcome to an HTTP status — unauthorized (401) when credentials
are absent or the signature is invalid, a generic failure status for
propagated classifier/extractor/persistence errors (spec sections 6-7). -/
def webhookResponse (r : Except JsErr Nat) : Nat :=
  match r with
  | .ok s => s
  | .error .invalidSignature => 401
  | .error _ => 500

/-- Handler of POST `/donate/subscribe` (lines 99-121) for an
authenticated user of tenant `churchId`: create the provider
subscription, persist the Subscription row, then persist and return one
SubscriptionFund row per requested fund. -/
def subscribe (env : Env) (churchId : String) (body_id : String)
    (body_amount : Rat) (customerId : String) (funds : List FundRec)
    (personId : String) (db : Db) :
    Except JsErr (List SubscriptionFund) × Db :=
  match gatewayLoadAll churchId db with
  | [] => (.ok [], db)   -- loadPrivateKey yields "" here: respond 401, no writes
  | g :: _ =>
    let secretKey := env.decrypt g.privateKey
    if secretKey == "" then (.ok [], db)
    else
      let paymentData : PaymentDetails :=
        { payment_method_id := some body_id, amount := some body_amount,
          currency := some "usd", customer := some customerId,
          productId := some g.productId }
      let ssid := env.createSubscription secretKey paymentData
      let subscription : Subscription :=
        { id := ssid, churchId := churchId, personId := personId,
          customerId := customerId }
      let db1 := { db with subscriptions := db.subscriptions ++ [subscription] }
      let rows := funds.map (fun fund =>
        ({ churchId := churchId, subscriptionId := subscription.id,
           fundId := fund.id, amount := fund.amount } : SubscriptionFund))
      (.ok rows, { db1 with subscriptionFunds := db1.subscriptionFunds ++ rows })

end GivingApi

deriving instance DecidableEq for Except

namespace GivingApi

/- ------------------------------------------------------------------ -/
/- Concrete scenario data used by counterexamples and witnesses.      -/
/- ------------------------------------------------------------------ -/

/-- Card payment-method details with last4 4242. -/
def pmdCard : PMDetails := { type := "card", sub := [("card", { last4 := some "4242" })] }

/-- Charge detail the provider returns for fetched charges. -/
def chargeData1 : ChargeData := { payment_method_details := some pmdCard }

/-- Gateway credential row of tenant ch1. -/
def gw1 : Gateway := { churchId := "ch1", privateKey := "sk", webhookKey := "wk", productId := "prod" }

/-- Customer row of tenant ch1. -/
def cust1 : Customer := { churchId := "ch1", id := "cus_1", personId := "per_1" }

/-- An invoice.paid event for a subscription cycle: 2500 minor units
paid, fund metadata naming one fund. -/
def evInvoicePaid : StripeEvent :=
  { id := "evt_1", type := "invoice.paid",
    dataObject := {
      created := 1700000000,
      customer := some "cus_1",
      status := some "paid",
      metadata := some { funds := some [{ id := some "fund_1", amount := 25 }] },
      amount_paid := some 2500,
      subscription := some "sub_1",
      billing_reason := some "subscription_cycle",
      charge := some "ch_x" } }

/-- Environment with identity decryption, a provider that resolves
fetched charges to `chargeData1`, and no verifiable events. -/
def envBase : Env :=
  { decrypt := fun s => s, verifySignature := fun _ _ _ _ => none,
    getCharge := fun _ _ => some chargeData1, createSubscription := fun _ _ => "sub_1" }

/-- Environment whose signature verifier accepts and yields `evInvoicePaid`. -/
def envInvoice : Env := { envBase with verifySignature := fun _ _ _ _ => some evInvoicePaid }

/-- Store of tenant ch1 holding the gateway and customer rows only. -/
def dbC1 : Db := { gateways := [gw1], customers := [cust1] }

/- ------------------------------------------------------------------ -/
/- Claims.                                                            -/
/- ------------------------------------------------------------------ -/

/-- C1: the claim says a provider event id already present in the event
log must not produce a second Donation or FundDonation on redelivery.
The code violates it: the `existingEvent` check of lines 62-68 guards
only the EventLog write, while the donation side effect of lines 71-77
runs unconditionally for recognized event types.  Delivering the same
invoice.paid event twice leaves one EventLogEntry but two Donations and
two FundDonations. -/
theorem c1_duplicate_event_double_donation :
    (init envInvoice "ch1" "body" "sig" dbC1).2.eventLogs.length = 1 ∧
    (init envInvoice "ch1" "body" "sig" dbC1).2.donations.length = 1 ∧
    (init envInvoice "ch1" "body" "sig" dbC1).2.fundDonations.length = 1 ∧
    ((init envInvoice "ch1" "body" "sig"
        (init envInvoice "ch1" "body" "sig" dbC1).2).2).eventLogs.length = 1 ∧
    ((init envInvoice "ch1" "body" "sig"
        (init envInvoice "ch1" "body" "sig" dbC1).2).2).donations.length = 2 ∧
    ((init envInvoice "ch1" "body" "sig"
        (init envInvoice "ch1" "body" "sig" dbC1).2).2).fundDonations.length = 2 := by
  decide

/-- A charge.succeeded event whose description marks it as
subscription-driven. -/
def evChargeSub : StripeEvent :=
  { id := "evt_2", type := "charge.succeeded",
    dataObject := { created := 5, customer := some "cus_1",
                    description := some "Subscription payment" } }

/-- Environment whose signature verifier accepts and yields `evChargeSub`. -/
def envChargeSub : Env := { envBase with verifySignature := fun _ _ _ _ => some evChargeSub }

/-- Store of tenant ch1 holding only the gateway row; in particular its
event log is empty. -/
def dbGw : Db := { gateways := [gw1] }

/-- C2 counterexample: the claim says a subscription-context
charge.succeeded event creates an EventLogEntry.  The code returns at
line 42, before the event-log write of lines 62-68: the store is left
unchanged and no EventLogEntry exists for the event. -/
theorem c2_counterexample :
    init envChargeSub "ch1" "body" "sig" dbGw = (.ok 200, dbGw) ∧ dbGw.eventLogs = [] := by
  decide

/-- C2 amended: for every verified charge.succeeded event whose payload
indicates a subscription context (a truthy subscription reference, or
"subscription" contained case-insensitively in the description), the
webhook returns success immediately and performs no write at all —
neither a Donation nor an EventLogEntry. -/
theorem c2_subscription_charge_fully_ignored
    (env : Env) (churchId rawBody sig : String) (db : Db)
    (g : Gateway) (gs : List Gateway) (ev : StripeEvent)
    (h1 : gatewayLoadAll churchId db = g :: gs)
    (h2 : (env.decrypt g.privateKey == "") = false)
    (h3 : env.verifySignature (env.decrypt g.privateKey) rawBody sig
          (env.decrypt g.webhookKey) = some ev)
    (h4 : ev.type = "charge.succeeded")
    (h5 : (truthyStr ev.dataObject.subscription ||
           descHasSubscription ev.dataObject.description) = true) :
    init env churchId rawBody sig db = (.ok 200, db) := by
  unfold init handleVerifiedEvent
  rw [h1]
  simp [h2, h3, h4, h5]

/-- Witness for C2 amended at the concrete subscription charge event. -/
theorem c2_subscription_charge_fully_ignored_witness :
    init envChargeSub "ch1" "body" "sig" dbGw = (.ok 200, dbGw) :=
  c2_subscription_charge_fully_ignored envChargeSub "ch1" "body" "sig" dbGw gw1 [] evChargeSub
    (by decide) (by decide) rfl rfl (by decide)

/-- Predicate over the source's lines 26-36: the webhook request fails
authentication — the tenant has no gateway, its private key decrypts to
the empty string, or signature verification rejects the raw body. -/
def webhookAuthFails (env : Env) (churchId rawBody sig : String) (db : Db) : Bool :=
  match gatewayLoadAll churchId db with
  | [] => true
  | g :: _ =>
    let sk := env.decrypt g.privateKey
    sk == "" || (env.verifySignature sk rawBody sig (env.decrypt g.webhookKey)).isNone

/-- C5: whenever the tenant has no gateway credentials or signature
verification of the raw body fails, the webhook handler responds
unauthorized (401) and the store is untouched — no EventLogEntry, no
Donation, no FundDonation. -/
theorem c5_auth_failure_no_writes (env : Env) (churchId rawBody sig : String) (db : Db)
    (h : webhookAuthFails env churchId rawBody sig db = true) :
    (init env churchId rawBody sig db).2 = db ∧
    webhookResponse (init env churchId rawBody sig db).1 = 401 := by
  unfold webhookAuthFails at h
  unfold init
  cases hg : gatewayLoadAll churchId db with
  | nil => simp [webhookResponse]
  | cons g gs =>
    rw [hg] at h
    simp only [Bool.or_eq_true] at h
    by_cases hsk : (env.decrypt g.privateKey == "") = true
    · simp [hsk, webhookResponse]
    · simp only [Option.isNone_iff_eq_none] at h
      rcases h with h | hv
      · exact absurd h hsk
      · simp [hsk, hv, webhookResponse]

/-- Witness for C5 at a store with no gateway rows. -/
theorem c5_auth_failure_no_writes_witness :
    webhookAuthFails envBase "ch1" "b" "s" {} = true ∧
    ((init envBase "ch1" "b" "s" {}).2 = ({} : Db) ∧
     webhookResponse (init envBase "ch1" "b" "s" {}).1 = 401) :=
  ⟨by decide, c5_auth_failure_no_writes envBase "ch1" "b" "s" {} (by decide)⟩

/- ------------------------------------------------------------------ -/
/- Helper lemmas about the stores the stages thread through.          -/
/- ------------------------------------------------------------------ -/

/-- Creating an event log entry leaves the donations table unchanged. -/
theorem eventLogCreate_donations (entry : EventLog) (db : Db) :
    (eventLogCreate entry db).donations = db.donations := rfl

/-- Creating an event log entry appends exactly that entry. -/
theorem eventLogCreate_eventLogs (entry : EventLog) (db : Db) :
    (eventLogCreate entry db).eventLogs = db.eventLogs ++ [entry] := rfl

/-- Creating an event log entry leaves the fund donations unchanged. -/
theorem eventLogCreate_fundDonations (entry : EventLog) (db : Db) :
    (eventLogCreate entry db).fundDonations = db.fundDonations := rfl

/-- Customer lookup is unaffected by an event log write. -/
theorem customerLoad_eventLogCreate (churchId : String) (c : Option String)
    (entry : EventLog) (db : Db) :
    customerLoad churchId c (eventLogCreate entry db) = customerLoad churchId c db := rfl

/-- Subscription fund lookup is unaffected by an event log write. -/
theorem subscriptionFundLoad_eventLogCreate (churchId : String) (s : Option String)
    (entry : EventLog) (db : Db) :
    subscriptionFundLoadBySubscriptionId churchId s (eventLogCreate entry db) =
      subscriptionFundLoadBySubscriptionId churchId s db := rfl

/-- The batch manager never touches the event log. -/
theorem getOrCreate_eventLogs (churchId : String) (db : Db) :
    (donationBatchGetOrCreateCurrent churchId db).2.eventLogs = db.eventLogs := by
  unfold donationBatchGetOrCreateCurrent
  cases db.batches.find? (fun b => b.churchId == churchId) <;> rfl

/-- The batch manager never touches the donations table. -/
theorem getOrCreate_donations (churchId : String) (db : Db) :
    (donationBatchGetOrCreateCurrent churchId db).2.donations = db.donations := by
  unfold donationBatchGetOrCreateCurrent
  cases db.batches.find? (fun b => b.churchId == churchId) <;> rfl

/-- The batch manager never touches the fund donations table. -/
theorem getOrCreate_fundDonations (churchId : String) (db : Db) :
    (donationBatchGetOrCreateCurrent churchId db).2.fundDonations = db.fundDonations := by
  unfold donationBatchGetOrCreateCurrent
  cases db.batches.find? (fun b => b.churchId == churchId) <;> rfl

/-- Successful run of `logDonation`, written out: the donation is
stamped with the current batch id, saved under a generated id, and one
FundDonation per fund record is appended and returned. -/
theorem logDonation_ok (env : Env) (d : Donation) (fund : List FundRec) (db : Db)
    (hf : env.failDonationSave = false) :
    logDonation env d fund db =
      (let bp := donationBatchGetOrCreateCurrent d.churchId db
       let saved : Donation := { d with batchId := some bp.1.id, id := some (toString bp.2.nextId) }
       let fds := fund.map (fun f =>
         ({ churchId := saved.churchId, amount := f.amount,
            donationId := saved.id, fundId := f.id } : FundDonation))
       let db2 := { bp.2 with donations := bp.2.donations ++ [saved], nextId := bp.2.nextId + 1 }
       (Except.ok fds, { db2 with fundDonations := db2.fundDonations ++ fds })) := by
  unfold logDonation donationSave
  rw [hf]
  simp

/-- C3: for a verified invoice.paid event with `amount_paid = 2500`,
`billing_reason = "subscription_cycle"` and `status = "paid"` (and no
`amount` field, as on invoice payloads), whose payment details resolve,
whose id is new, whose customer is known and whose metadata object is
present, the webhook appends exactly one EventLogEntry with id equal to
the event id and message `"subscription_cycle paid"`, and exactly one
Donation with amount 25 — minor units divided by 100, taken from
`amount_paid` since `amount` is absent. -/
theorem c3_invoice_paid_amount_and_message
    (env : Env) (churchId rawBody sig : String) (db : Db)
    (g : Gateway) (gs : List Gateway) (ev : StripeEvent) (pmd : PMDetails) (so : SubObj)
    (cust : Customer) (m : Metadata)
    (h1 : gatewayLoadAll churchId db = g :: gs)
    (h2 : (env.decrypt g.privateKey == "") = false)
    (h3 : env.verifySignature (env.decrypt g.privateKey) rawBody sig
          (env.decrypt g.webhookKey) = some ev)
    (h4 : ev.type = "invoice.paid")
    (h5 : ev.dataObject.amount = none)
    (h6 : ev.dataObject.amount_paid = some 2500)
    (h7 : ev.dataObject.billing_reason = some "subscription_cycle")
    (h8 : ev.dataObject.status = some "paid")
    (h9 : resolvePaymentMethodDetails env (env.decrypt g.privateKey) ev.dataObject = .ok (some pmd))
    (h10 : assocLookup pmd.sub pmd.type = some so)
    (h11 : eventLogLoad churchId ev.id db = none)
    (h12 : customerLoad churchId ev.dataObject.customer db = some cust)
    (h13 : ev.dataObject.metadata = some m)
    (h14 : env.failDonationSave = false) :
    (init env churchId rawBody sig db).1 = .ok 200 ∧
    (init env churchId rawBody sig db).2.eventLogs.map (fun l => (l.id, l.message)) =
      db.eventLogs.map (fun l => (l.id, l.message)) ++ [(ev.id, some "subscription_cycle paid")] ∧
    (init env churchId rawBody sig db).2.donations.map (fun d => d.amount) =
      db.donations.map (fun d => d.amount) ++ [some 25] := by
  have hne : (ev.type == "charge.succeeded") = false := by rw [h4]; decide
  have hrec : (ev.type == "charge.succeeded" || ev.type == "invoice.paid") = true := by
    rw [h4]; decide
  have hmsg : messageOf ev.dataObject = .ok (some "subscription_cycle paid") := by
    unfold messageOf
    rw [h7, h8]
    rfl
  unfold init
  rw [h1]
  simp only [h2, Bool.false_eq_true, if_false, h3]
  unfold handleVerifiedEvent
  have hip : (ev.type == "invoice.paid") = true := by rw [h4]; decide
  have hamt : ∀ don : Donation, don.amount = (jsOrInt ev.dataObject.amount
      ev.dataObject.amount_paid).map (fun c => (c : Rat) / 100) → don.amount = some 25 := by
    intro don hd
    rw [hd, h5, h6]
    simp [jsOrInt, truthyInt]
    norm_num
  simp only [hne, Bool.false_and, if_false, h9, extractPaymentDetails, h10, h11, hmsg,
    hrec, if_true, h13, h12, customerLoad_eventLogCreate,
    logDonation_ok _ _ _ _ h14]
  simp only [Bool.false_eq_true, if_false, false_or, hip, if_true]
  cases hmf : m.funds with
  | none =>
    refine ⟨rfl, ?_, ?_⟩
    · simp [getOrCreate_eventLogs, eventLogCreate_eventLogs]
    · simp [getOrCreate_donations, eventLogCreate_donations]
      have := hamt { churchId := churchId, amount := (jsOrInt ev.dataObject.amount
        ev.dataObject.amount_paid).map (fun c => (c : Rat) / 100) } rfl
      simp at this
      simp [this]
  | some l =>
    refine ⟨rfl, ?_, ?_⟩
    · simp [getOrCreate_eventLogs, eventLogCreate_eventLogs]
    · simp [getOrCreate_donations, eventLogCreate_donations]
      have := hamt { churchId := churchId, amount := (jsOrInt ev.dataObject.amount
        ev.dataObject.amount_paid).map (fun c => (c : Rat) / 100) } rfl
      simp at this
      simp [this]

/-- Witness for C3 at the concrete invoice.paid scenario. -/
theorem c3_invoice_paid_amount_and_message_witness :
    (init envInvoice "ch1" "body" "sig" dbC1).1 = .ok 200 ∧
    (init envInvoice "ch1" "body" "sig" dbC1).2.eventLogs.map (fun l => (l.id, l.message)) =
      dbC1.eventLogs.map (fun l => (l.id, l.message)) ++ [("evt_1", some "subscription_cycle paid")] ∧
    (init envInvoice "ch1" "body" "sig" dbC1).2.donations.map (fun d => d.amount) =
      dbC1.donations.map (fun d => d.amount) ++ [some 25] :=
  c3_invoice_paid_amount_and_message envInvoice "ch1" "body" "sig" dbC1 gw1 [] evInvoicePaid
    pmdCard ⟨some "4242"⟩ cust1 { funds := some [{ id := some "fund_1", amount := 25 }] }
    (by decide) (by decide) rfl rfl rfl rfl rfl rfl rfl (by decide) rfl (by decide) rfl rfl

/-- C4 counterexample: the claim says every payment-method type outside
the fixed table fails extraction with an explicit error.  For a type
outside the table whose type-named sub-object is present — the shape the
provider actually sends — the table lookup yields `undefined` without
throwing, and extraction silently produces a value whose method label is
`undefined` together with that sub-object's last4. -/
theorem c4_counterexample :
    extractPaymentDetails
      (some { type := "sepa_debit", sub := [("sepa_debit", { last4 := some "1234" })] }) =
      .ok (none, some "1234") := by
  decide

/-- C4 amended: `ach_debit` maps to "ACH Debit" and `card` to "Card",
with methodDetails the last4 of the type-named sub-object; for a type
outside the table no explicit UnsupportedPaymentMethod error is raised —
extraction throws a TypeError only when the type-named sub-object is
absent, and otherwise silently yields an `undefined` method label with
that sub-object's last4. -/
theorem c4_method_table_amended :
    (∀ (sub : List (String × SubObj)) (l4 : Option String),
      assocLookup sub "ach_debit" = some { last4 := l4 } →
      extractPaymentDetails (some { type := "ach_debit", sub := sub }) = .ok (some "ACH Debit", l4))
    ∧ (∀ (sub : List (String × SubObj)) (l4 : Option String),
      assocLookup sub "card" = some { last4 := l4 } →
      extractPaymentDetails (some { type := "card", sub := sub }) = .ok (some "Card", l4))
    ∧ (∀ pmd : PMDetails, assocLookup methodTypes pmd.type = none →
      extractPaymentDetails (some pmd) =
        (match assocLookup pmd.sub pmd.type with
         | some so => .ok (none, so.last4)
         | none => .error .typeError)) := by
  refine ⟨?_, ?_, ?_⟩
  · intro sub l4 h
    simp [extractPaymentDetails, assocLookup, methodTypes, h]
  · intro sub l4 h
    simp [extractPaymentDetails, assocLookup, methodTypes, h]
  · intro pmd h
    simp only [extractPaymentDetails, h]
    cases hs : assocLookup pmd.sub pmd.type <;> simp [hs]

/-- Witness for C4 amended: the two mapped types, a missing sub-object
failure, and a silent value for an unrecognized type. -/
theorem c4_method_table_amended_witness :
    extractPaymentDetails
      (some { type := "ach_debit", sub := [("ach_debit", { last4 := some "6789" })] }) =
      .ok (some "ACH Debit", some "6789") ∧
    extractPaymentDetails
      (some { type := "card", sub := [("card", { last4 := some "4242" })] }) =
      .ok (some "Card", some "4242") ∧
    extractPaymentDetails (some { type := "bogus", sub := [] }) = .error .typeError ∧
    extractPaymentDetails
      (some { type := "sepa_debit", sub := [("sepa_debit", { last4 := some "9999" })] }) =
      .ok (none, some "9999") :=
  ⟨c4_method_table_amended.1 _ (some "6789") (by decide),
   c4_method_table_amended.2.1 _ (some "4242") (by decide),
   c4_method_table_amended.2.2 { type := "bogus", sub := [] } (by decide),
   c4_method_table_amended.2.2
     { type := "sepa_debit", sub := [("sepa_debit", { last4 := some "9999" })] } (by decide)⟩

/-- An invoice.paid subscription-cycle event that carries no fund
metadata; the fund split must be recovered from the stored rows. -/
def evInvoiceNoFunds : StripeEvent :=
  { id := "evt_4", type := "invoice.paid",
    dataObject := { created := 7, customer := some "cus_1", status := some "paid",
                    metadata := some { funds := none },
                    amount_paid := some 2500,
                    subscription := some "sub_1",
                    billing_reason := some "subscription_cycle",
                    payment_method_details := some pmdCard } }

/-- Environment whose signature verifier yields `evInvoiceNoFunds` and
whose subscription creation yields id sub_1. -/
def envC6 : Env := { envBase with verifySignature := fun _ _ _ _ => some evInvoiceNoFunds }

/-- Same invoice.paid event but carrying an inline fund metadata list. -/
def evC6meta (funds : List FundRec) : StripeEvent :=
  { id := "evt_5", type := "invoice.paid",
    dataObject := { created := 7, customer := some "cus_1", status := some "paid",
                    metadata := some { funds := some funds },
                    amount_paid := some 2500,
                    subscription := some "sub_1",
                    billing_reason := some "subscription_cycle",
                    payment_method_details := some pmdCard } }

/-- Environment whose signature verifier yields `evC6meta funds`. -/
def envC6meta (funds : List FundRec) : Env :=
  { envBase with verifySignature := fun _ _ _ _ => some (evC6meta funds) }

/-- Fund rows produced by a successful donation-relevant webhook run:
for every environment, tenant, store and verified event whose type
passes the donation gate and whose extraction, dedup lookup, message,
customer and metadata accesses succeed, the appended FundDonation rows
come from `metadata.funds` verbatim when that field is truthy, and
otherwise from the stored SubscriptionFund rows matching the event's
subscription id. -/
theorem init_donation_fundRows
    (env : Env) (churchId rawBody sig : String) (db : Db)
    (g : Gateway) (gs : List Gateway) (ev : StripeEvent) (pmd : PMDetails) (so : SubObj)
    (cust : Customer) (m : Metadata) (msg : Option String)
    (h1 : gatewayLoadAll churchId db = g :: gs)
    (h2 : (env.decrypt g.privateKey == "") = false)
    (h3 : env.verifySignature (env.decrypt g.privateKey) rawBody sig
          (env.decrypt g.webhookKey) = some ev)
    (hg1 : (ev.type == "charge.succeeded" &&
      (truthyStr ev.dataObject.subscription ||
        descHasSubscription ev.dataObject.description)) = false)
    (hg2 : (ev.type == "charge.succeeded" || ev.type == "invoice.paid") = true)
    (h9 : resolvePaymentMethodDetails env (env.decrypt g.privateKey) ev.dataObject = .ok (some pmd))
    (h10 : assocLookup pmd.sub pmd.type = some so)
    (h11 : eventLogLoad churchId ev.id db = none)
    (hmsg : messageOf ev.dataObject = .ok msg)
    (h12 : customerLoad churchId ev.dataObject.customer db = some cust)
    (h13 : ev.dataObject.metadata = some m)
    (h14 : env.failDonationSave = false) :
    (init env churchId rawBody sig db).2.fundDonations.map (fun fd => (fd.fundId, fd.amount)) =
      db.fundDonations.map (fun fd => (fd.fundId, fd.amount)) ++
        (match m.funds with
         | some l => l.map (fun f => (f.id, f.amount))
         | none => (subscriptionFundLoadBySubscriptionId churchId
             ev.dataObject.subscription db).map (fun sf => ((none : Option String), sf.amount))) := by
  unfold init
  rw [h1]
  simp only [h2, Bool.false_eq_true, if_false, h3]
  unfold handleVerifiedEvent
  simp only [hg1, Bool.false_eq_true, if_false, h9, extractPaymentDetails, h10, h11, hmsg,
    hg2, if_true, h13, h12, customerLoad_eventLogCreate, subscriptionFundLoad_eventLogCreate,
    logDonation_ok _ _ _ _ h14]
  cases hmf : m.funds with
  | none =>
    simp [getOrCreate_fundDonations, eventLogCreate_fundDonations, List.map_map]
  | some l =>
    simp [getOrCreate_fundDonations, eventLogCreate_fundDonations, List.map_map]

/-- Successful run of `subscribe`, written out: the Subscription row and
one SubscriptionFund row per requested fund are appended to the store. -/
theorem subscribe_ok_db (env : Env) (churchId body_id : String) (body_amount : Rat)
    (customerId : String) (funds : List FundRec) (personId : String) (db : Db)
    (g : Gateway) (gs : List Gateway) (ssid : String)
    (h1 : gatewayLoadAll churchId db = g :: gs)
    (h2 : (env.decrypt g.privateKey == "") = false)
    (hs1 : env.createSubscription (env.decrypt g.privateKey)
      { payment_method_id := some body_id, amount := some body_amount,
        currency := some "usd", customer := some customerId,
        productId := some g.productId } = ssid) :
    (subscribe env churchId body_id body_amount customerId funds personId db).2 =
      { db with
        subscriptions := db.subscriptions ++
          [{ id := ssid, churchId := churchId, personId := personId, customerId := customerId }],
        subscriptionFunds := db.subscriptionFunds ++ funds.map (fun fund =>
          ({ churchId := churchId, subscriptionId := ssid, fundId := fund.id,
             amount := fund.amount } : SubscriptionFund)) } := by
  unfold subscribe
  rw [h1]
  simp [h2, hs1]

/-- Appending the rows of one subscription to a store holding no row for
that tenant and subscription id makes the tenant-and-subscription filter
return exactly the appended rows. -/
theorem filter_append_subscription_rows (churchId ssid : String)
    (l : List SubscriptionFund) (funds : List FundRec)
    (hclean : l.filter
      (fun sf => sf.churchId == churchId && some sf.subscriptionId == some ssid) = []) :
    ((l ++ funds.map (fun fund =>
        ({ churchId := churchId, subscriptionId := ssid, fundId := fund.id,
           amount := fund.amount } : SubscriptionFund))).filter
      (fun sf => sf.churchId == churchId && some sf.subscriptionId == some ssid)) =
      funds.map (fun fund =>
        ({ churchId := churchId, subscriptionId := ssid, fundId := fund.id,
           amount := fund.amount } : SubscriptionFund)) := by
  rw [List.filter_append, hclean, List.nil_append]
  induction funds with
  | nil => rfl
  | cons f fs ih => simp [List.filter_cons, ih]

/-- C6: fund-split resolution, for every donation-relevant event.  First
part: when the event carries fund metadata, the appended FundDonation
rows take their fund ids and amounts verbatim from the JSON-parsed
`metadata.funds` list.  Second part: without fund metadata the rows come
from exactly the stored SubscriptionFund rows matching the event's
subscription id for the tenant — rows of other subscriptions or tenants
in the store do not contribute.  Third part: a `subscribe` storing the
fund split, followed by an invoice.paid event for that subscription id
with no `metadata.funds`, yields FundDonation amounts equal to the
per-fund amounts stored at subscribe time, for any prior store holding
no row of that subscription. -/
theorem c6_fund_split_resolution :
    (∀ (env : Env) (churchId rawBody sig : String) (db : Db)
        (g : Gateway) (gs : List Gateway) (ev : StripeEvent) (pmd : PMDetails) (so : SubObj)
        (cust : Customer) (m : Metadata) (msg : Option String) (l : List FundRec),
      gatewayLoadAll churchId db = g :: gs →
      (env.decrypt g.privateKey == "") = false →
      env.verifySignature (env.decrypt g.privateKey) rawBody sig
        (env.decrypt g.webhookKey) = some ev →
      (ev.type == "charge.succeeded" &&
        (truthyStr ev.dataObject.subscription ||
          descHasSubscription ev.dataObject.description)) = false →
      (ev.type == "charge.succeeded" || ev.type == "invoice.paid") = true →
      resolvePaymentMethodDetails env (env.decrypt g.privateKey) ev.dataObject = .ok (some pmd) →
      assocLookup pmd.sub pmd.type = some so →
      eventLogLoad churchId ev.id db = none →
      messageOf ev.dataObject = .ok msg →
      customerLoad churchId ev.dataObject.customer db = some cust →
      ev.dataObject.metadata = some m →
      env.failDonationSave = false →
      m.funds = some l →
      (init env churchId rawBody sig db).2.fundDonations.map (fun fd => (fd.fundId, fd.amount)) =
        db.fundDonations.map (fun fd => (fd.fundId, fd.amount)) ++
          l.map (fun f => (f.id, f.amount))) ∧
    (∀ (env : Env) (churchId rawBody sig : String) (db : Db)
        (g : Gateway) (gs : List Gateway) (ev : StripeEvent) (pmd : PMDetails) (so : SubObj)
        (cust : Customer) (m : Metadata) (msg : Option String),
      gatewayLoadAll churchId db = g :: gs →
      (env.decrypt g.privateKey == "") = false →
      env.verifySignature (env.decrypt g.privateKey) rawBody sig
        (env.decrypt g.webhookKey) = some ev →
      (ev.type == "charge.succeeded" &&
        (truthyStr ev.dataObject.subscription ||
          descHasSubscription ev.dataObject.description)) = false →
      (ev.type == "charge.succeeded" || ev.type == "invoice.paid") = true →
      resolvePaymentMethodDetails env (env.decrypt g.privateKey) ev.dataObject = .ok (some pmd) →
      assocLookup pmd.sub pmd.type = some so →
      eventLogLoad churchId ev.id db = none →
      messageOf ev.dataObject = .ok msg →
      customerLoad churchId ev.dataObject.customer db = some cust →
      ev.dataObject.metadata = some m →
      env.failDonationSave = false →
      m.funds = none →
      (init env churchId rawBody sig db).2.fundDonations.map (fun fd => (fd.fundId, fd.amount)) =
        db.fundDonations.map (fun fd => (fd.fundId, fd.amount)) ++
          (subscriptionFundLoadBySubscriptionId churchId
            ev.dataObject.subscription db).map (fun sf => ((none : Option String), sf.amount))) ∧
    (∀ (env : Env) (churchId rawBody sig : String) (db : Db)
        (g : Gateway) (gs : List Gateway) (ev : StripeEvent) (pmd : PMDetails) (so : SubObj)
        (cust : Customer) (m : Metadata) (msg : Option String)
        (body_id : String) (body_amount : Rat) (customerId : String) (funds : List FundRec)
        (personId : String) (ssid : String),
      gatewayLoadAll churchId db = g :: gs →
      (env.decrypt g.privateKey == "") = false →
      env.createSubscription (env.decrypt g.privateKey)
        { payment_method_id := some body_id, amount := some body_amount,
          currency := some "usd", customer := some customerId,
          productId := some g.productId } = ssid →
      env.verifySignature (env.decrypt g.privateKey) rawBody sig
        (env.decrypt g.webhookKey) = some ev →
      (ev.type == "charge.succeeded" &&
        (truthyStr ev.dataObject.subscription ||
          descHasSubscription ev.dataObject.description)) = false →
      (ev.type == "charge.succeeded" || ev.type == "invoice.paid") = true →
      resolvePaymentMethodDetails env (env.decrypt g.privateKey) ev.dataObject = .ok (some pmd) →
      assocLookup pmd.sub pmd.type = some so →
      eventLogLoad churchId ev.id db = none →
      messageOf ev.dataObject = .ok msg →
      customerLoad churchId ev.dataObject.customer db = some cust →
      ev.dataObject.metadata = some m →
      m.funds = none →
      ev.dataObject.subscription = some ssid →
      subscriptionFundLoadBySubscriptionId churchId (some ssid) db = [] →
      env.failDonationSave = false →
      ((init env churchId rawBody sig
          (subscribe env churchId body_id body_amount customerId funds personId db).2).2).fundDonations.map
          (fun fd => (fd.fundId, fd.amount)) =
        db.fundDonations.map (fun fd => (fd.fundId, fd.amount)) ++
          funds.map (fun f => ((none : Option String), f.amount))) := by
  refine ⟨?_, ?_, ?_⟩
  · intro env churchId rawBody sig db g gs ev pmd so cust m msg l
      h1 h2 h3 hg1 hg2 h9 h10 h11 hmsg h12 h13 h14 hl
    rw [init_donation_fundRows env churchId rawBody sig db g gs ev pmd so cust m msg
      h1 h2 h3 hg1 hg2 h9 h10 h11 hmsg h12 h13 h14, hl]
  · intro env churchId rawBody sig db g gs ev pmd so cust m msg
      h1 h2 h3 hg1 hg2 h9 h10 h11 hmsg h12 h13 h14 hmf
    rw [init_donation_fundRows env churchId rawBody sig db g gs ev pmd so cust m msg
      h1 h2 h3 hg1 hg2 h9 h10 h11 hmsg h12 h13 h14, hmf]
  · intro env churchId rawBody sig db g gs ev pmd so cust m msg
      body_id body_amount customerId funds personId ssid
      h1 h2 hs1 h3 hg1 hg2 h9 h10 h11 hmsg h12 h13 hmf hs2 hclean h14
    have hdb := subscribe_ok_db env churchId body_id body_amount customerId funds personId db
      g gs ssid h1 h2 hs1
    have h1s : gatewayLoadAll churchId
        (subscribe env churchId body_id body_amount customerId funds personId db).2 = g :: gs := by
      rw [hdb]; exact h1
    have h11s : eventLogLoad churchId ev.id
        (subscribe env churchId body_id body_amount customerId funds personId db).2 = none := by
      rw [hdb]; exact h11
    have h12s : customerLoad churchId ev.dataObject.customer
        (subscribe env churchId body_id body_amount customerId funds personId db).2 = some cust := by
      rw [hdb]; exact h12
    have hrows : subscriptionFundLoadBySubscriptionId churchId (some ssid)
        (subscribe env churchId body_id body_amount customerId funds personId db).2 =
        funds.map (fun fund =>
          ({ churchId := churchId, subscriptionId := ssid, fundId := fund.id,
             amount := fund.amount } : SubscriptionFund)) := by
      rw [hdb]
      exact filter_append_subscription_rows churchId ssid db.subscriptionFunds funds hclean
    rw [init_donation_fundRows env churchId rawBody sig _ g gs ev pmd so cust m msg
      h1s h2 h3 hg1 hg2 h9 h10 h11s hmsg h12s h13 h14]
    simp only [hmf]
    rw [hs2, hrows, hdb]
    simp [List.map_map]

/-- Stored fund row of the same tenant but another subscription: must
not contribute to a sub_1 donation. -/
def sfOther : SubscriptionFund :=
  { churchId := "ch1", subscriptionId := "sub_other", fundId := some "fx", amount := 99 }

/-- Stored fund row of another tenant for subscription id sub_1: must
not contribute either. -/
def sfOtherTenant : SubscriptionFund :=
  { churchId := "ch2", subscriptionId := "sub_1", fundId := some "fy", amount := 77 }

/-- Stored fund row of tenant ch1 for subscription sub_1: the only row
the filter may return. -/
def sfMatch : SubscriptionFund :=
  { churchId := "ch1", subscriptionId := "sub_1", fundId := some "fz", amount := 33 }

/-- Store of tenant ch1 whose subscription funds hold only rows that do
NOT match (ch1, sub_1). -/
def dbC6 : Db :=
  { gateways := [gw1], customers := [cust1], subscriptionFunds := [sfOther, sfOtherTenant] }

/-- Store holding one matching row for (ch1, sub_1) between two
non-matching ones. -/
def dbC6b : Db :=
  { gateways := [gw1], customers := [cust1], subscriptionFunds := [sfOther, sfMatch, sfOtherTenant] }

/-- Witness for C6 at concrete scenarios: inline fund metadata is used
verbatim; without metadata only the stored row matching the event's
tenant and subscription id contributes (amount 33, not the non-matching
99 or 77); and subscribe-then-invoice recovers exactly the subscribed
amounts 10 and 15 over a store holding unrelated rows. -/
theorem c6_fund_split_resolution_witness :
    (init (envC6meta [{ id := some "fund_1", amount := 25 }]) "ch1" "body" "sig"
        dbC6).2.fundDonations.map (fun fd => (fd.fundId, fd.amount)) =
      [(some "fund_1", (25 : Rat))] ∧
    (init envC6 "ch1" "body" "sig" dbC6b).2.fundDonations.map
        (fun fd => (fd.fundId, fd.amount)) = [((none : Option String), (33 : Rat))] ∧
    (init envC6 "ch1" "body" "sig"
        (subscribe envC6 "ch1" "pm_1" 25 "cus_1"
          [{ id := some "f1", amount := 10 }, { id := some "f2", amount := 15 }]
          "per_1" dbC6).2).2.fundDonations.map (fun fd => (fd.fundId, fd.amount)) =
      [((none : Option String), (10 : Rat)), (none, 15)] :=
  ⟨c6_fund_split_resolution.1 (envC6meta [{ id := some "fund_1", amount := 25 }]) "ch1" "body" "sig"
      dbC6 gw1 [] (evC6meta [{ id := some "fund_1", amount := 25 }]) pmdCard ⟨some "4242"⟩ cust1
      { funds := some [{ id := some "fund_1", amount := 25 }] } (some "subscription_cycle paid")
      [{ id := some "fund_1", amount := 25 }]
      (by decide) (by decide) rfl (by decide) (by decide) rfl rfl rfl rfl rfl rfl rfl rfl,
   c6_fund_split_resolution.2.1 envC6 "ch1" "body" "sig" dbC6b gw1 [] evInvoiceNoFunds pmdCard
      ⟨some "4242"⟩ cust1 { funds := none } (some "subscription_cycle paid")
      (by decide) (by decide) rfl (by decide) (by decide) rfl rfl rfl rfl rfl rfl rfl rfl,
   c6_fund_split_resolution.2.2 envC6 "ch1" "body" "sig" dbC6 gw1 [] evInvoiceNoFunds pmdCard
      ⟨some "4242"⟩ cust1 { funds := none } (some "subscription_cycle paid")
      "pm_1" 25 "cus_1" [{ id := some "f1", amount := 10 }, { id := some "f2", amount := 15 }]
      "per_1" "sub_1"
      (by decide) (by decide) rfl rfl (by decide) (by decide) rfl rfl rfl rfl rfl rfl rfl rfl
      (by decide) rfl⟩

/-- C7: `logDonation` obtains the tenant's current batch, stamps the
donation with that batch's id, persists it under the generated id, then
persists one FundDonation per fund record referencing the generated
donation id, and returns exactly those persisted fund donations. -/
theorem c7_logDonation_contract (env : Env) (d : Donation) (fund : List FundRec) (db : Db)
    (bp : DonationBatch × Db)
    (hb : d.batchId = none) (hf : env.failDonationSave = false)
    (hbp : bp = donationBatchGetOrCreateCurrent d.churchId db) :
    ∃ (saved : Donation) (fds : List FundDonation),
      saved = { d with batchId := some bp.1.id, id := some (toString bp.2.nextId) } ∧
      (logDonation env d fund db).1 = .ok fds ∧
      fds = fund.map (fun f =>
        ({ churchId := saved.churchId, amount := f.amount,
           donationId := saved.id, fundId := f.id } : FundDonation)) ∧
      (logDonation env d fund db).2.donations = bp.2.donations ++ [saved] ∧
      (logDonation env d fund db).2.fundDonations = bp.2.fundDonations ++ fds := by
  subst hbp
  rw [logDonation_ok env d fund db hf]
  exact ⟨_, _, rfl, rfl, rfl, rfl, rfl⟩

/-- Witness for C7 on an empty store: the batch manager lazily creates
batch 0 and the donation gets id 1. -/
theorem c7_logDonation_contract_witness :
    ∃ (saved : Donation) (fds : List FundDonation),
      saved = { ({ churchId := "ch1" } : Donation) with
                batchId := some (({ id := "0", churchId := "ch1" } : DonationBatch),
                  ({ batches := [{ id := "0", churchId := "ch1" }], nextId := 1 } : Db)).1.id,
                id := some (toString (({ id := "0", churchId := "ch1" } : DonationBatch),
                  ({ batches := [{ id := "0", churchId := "ch1" }], nextId := 1 } : Db)).2.nextId) } ∧
      (logDonation envBase { churchId := "ch1" } [{ id := some "f1", amount := 10 }] {}).1 = .ok fds ∧
      fds = ([{ id := some "f1", amount := 10 }] : List FundRec).map (fun f =>
        ({ churchId := saved.churchId, amount := f.amount,
           donationId := saved.id, fundId := f.id } : FundDonation)) ∧
      (logDonation envBase { churchId := "ch1" } [{ id := some "f1", amount := 10 }] {}).2.donations =
        (({ id := "0", churchId := "ch1" } : DonationBatch),
          ({ batches := [{ id := "0", churchId := "ch1" }], nextId := 1 } : Db)).2.donations ++ [saved] ∧
      (logDonation envBase { churchId := "ch1" } [{ id := some "f1", amount := 10 }] {}).2.fundDonations =
        (({ id := "0", churchId := "ch1" } : DonationBatch),
          ({ batches := [{ id := "0", churchId := "ch1" }], nextId := 1 } : Db)).2.fundDonations ++ fds :=
  c7_logDonation_contract envBase { churchId := "ch1" } [{ id := some "f1", amount := 10 }] {}
    ({ id := "0", churchId := "ch1" }, { batches := [{ id := "0", churchId := "ch1" }], nextId := 1 })
    rfl rfl (by decide)

/-- A charge.failed event with inline card details: an event type outside
the recognized set {charge.succeeded, invoice.paid}. -/
def evChargeFailed : StripeEvent :=
  { id := "evt_3", type := "charge.failed",
    dataObject := { created := 9, customer := some "cus_1", status := some "failed",
                    failure_message := some "card_declined",
                    outcome := some { seller_message := some "The bank declined." },
                    payment_method_details := some pmdCard } }

/-- Environment whose signature verifier yields `evChargeFailed`. -/
def envChargeFailed : Env := { envBase with verifySignature := fun _ _ _ _ => some evChargeFailed }

/-- C8 counterexample: the claim says an event type outside the
recognized set produces no EventLogEntry.  A verified charge.failed
event is not ignored by the code: it creates an EventLogEntry (while
creating no Donation). -/
theorem c8_counterexample :
    (init envChargeFailed "ch1" "body" "sig" dbGw).2.eventLogs.length = 1 ∧
    dbGw.eventLogs.length = 0 ∧
    (init envChargeFailed "ch1" "body" "sig" dbGw).2.donations = [] := by
  refine ⟨rfl, rfl, rfl⟩

/-- C8 amended: for every verified event whose type is outside
{charge.succeeded, invoice.paid} and whose payment details, dedup lookup
and message construction succeed with a new event id, the webhook
creates no Donation and no FundDonation but still creates an
EventLogEntry for the event and returns success. -/
theorem c8_unrecognized_type_logged_not_donated
    (env : Env) (churchId rawBody sig : String) (db : Db)
    (g : Gateway) (gs : List Gateway) (ev : StripeEvent)
    (md : Option String × Option String) (pmdOpt : Option PMDetails) (msg : Option String)
    (h1 : gatewayLoadAll churchId db = g :: gs)
    (h2 : (env.decrypt g.privateKey == "") = false)
    (h3 : env.verifySignature (env.decrypt g.privateKey) rawBody sig
          (env.decrypt g.webhookKey) = some ev)
    (h4 : (ev.type == "charge.succeeded") = false)
    (h5 : (ev.type == "invoice.paid") = false)
    (h6 : resolvePaymentMethodDetails env (env.decrypt g.privateKey) ev.dataObject = .ok pmdOpt)
    (h7 : extractPaymentDetails pmdOpt = .ok md)
    (h8 : eventLogLoad churchId ev.id db = none)
    (h9 : messageOf ev.dataObject = .ok msg) :
    init env churchId rawBody sig db =
      (.ok 200, eventLogCreate
        { id := ev.id, churchId := churchId, customerId := ev.dataObject.customer,
          provider := "Stripe", eventType := ev.type, status := ev.dataObject.status,
          message := msg, created := ev.dataObject.created * 1000 } db) := by
  unfold init
  rw [h1]
  simp only [h2, Bool.false_eq_true, if_false, h3]
  unfold handleVerifiedEvent
  simp only [h4, Bool.false_and, if_false, h6, h7, h8, h9, h5, Bool.or_self,
    Bool.false_eq_true, if_false]

/-- Witness for C8 amended at the charge.failed scenario; the logged
message concatenates the failure message and the seller message. -/
theorem c8_unrecognized_type_logged_not_donated_witness :
    init envChargeFailed "ch1" "body" "sig" dbGw =
      (.ok 200, eventLogCreate
        { id := "evt_3", churchId := "ch1", customerId := some "cus_1",
          provider := "Stripe", eventType := "charge.failed", status := some "failed",
          message := some "card_declined The bank declined.", created := 9000 } dbGw) :=
  c8_unrecognized_type_logged_not_donated envChargeFailed "ch1" "body" "sig" dbGw gw1 []
    evChargeFailed (some "Card", some "4242") (some pmdCard)
    (some "card_declined The bank declined.")
    (by decide) (by decide) rfl rfl rfl rfl rfl rfl rfl

/-- Environment injecting a persistence failure on the donation save. -/
def envFailSave : Env := { envBase with failDonationSave := true }

/-- Same as `envInvoice` but with the donation save failing. -/
def envFailInvoice : Env := { envInvoice with failDonationSave := true }

/-- C9: the claim says a failure persisting the donation during the
anonymous `/donate/log` request fails that request.  The code never
awaits the `logDonation` promise (line 18), so when the donation save
rejects, the request still responds success while no donation row
exists; the webhook path, which does await (line 76), propagates the
same failure. -/
theorem c9_log_ignores_persistence_failure :
    (log envFailSave { churchId := "ch1" } { id := some "f1", amount := 10 } dbGw).1 = .ok 200 ∧
    (log envFailSave { churchId := "ch1" } { id := some "f1", amount := 10 } dbGw).2.donations = [] ∧
    (logDonation envFailSave { churchId := "ch1" } [{ id := some "f1", amount := 10 }] dbGw).1 =
      .error .persistenceFailure ∧
    (init envFailInvoice "ch1" "body" "sig" dbC1).1 = .error .persistenceFailure := by
  refine ⟨rfl, rfl, rfl, rfl⟩

/-- C10 counterexample: the claim says a `/donate/log` request that does
not demonstrate possession of the tenant's secret key is rejected.  The
request body carries no key material at all, yet for a tenant with a
configured gateway the request succeeds and the donation is logged. -/
theorem c10_counterexample :
    (log envBase { churchId := "ch1" } { id := some "f1", amount := 10 } dbGw).1 = .ok 200 ∧
    (log envBase { churchId := "ch1" } { id := some "f1", amount := 10 } dbGw).2.donations.length = 1 := by
  exact ⟨rfl, rfl⟩

/-- C10 amended: the `/donate/log` endpoint checks only that the TENANT
named in the donation has gateway credentials whose private key decrypts
non-empty: absent or empty credentials give unauthorized with no writes,
and any caller naming a tenant with credentials gets success — no proof
of key possession is demanded from the caller. -/
theorem c10_log_auth_checks_tenant_key_presence :
    (∀ (env : Env) (d : Donation) (f : FundRec) (db : Db),
      loadPrivateKey env d.churchId db = "" → log env d f db = (.ok 401, db))
    ∧ (∀ (env : Env) (d : Donation) (f : FundRec) (db : Db),
      loadPrivateKey env d.churchId db ≠ "" → (log env d f db).1 = .ok 200) := by
  constructor
  · intro env d f db h
    simp [log, h]
  · intro env d f db h
    have hb : (loadPrivateKey env d.churchId db == "") = false := beq_eq_false_iff_ne.2 h
    simp [log, hb]

/-- Witness for C10 amended: tenant with no gateway is rejected with no
writes, tenant with a gateway is accepted. -/
theorem c10_log_auth_checks_tenant_key_presence_witness :
    log envBase { churchId := "ch1" } { id := some "f1", amount := 10 } {} = (.ok 401, ({} : Db)) ∧
    (log envBase { churchId := "ch1" } { id := some "f1", amount := 10 } dbGw).1 = .ok 200 :=
  ⟨c10_log_auth_checks_tenant_key_presence.1 envBase { churchId := "ch1" }
    { id := some "f1", amount := 10 } {} rfl,
   c10_log_auth_checks_tenant_key_presence.2 envBase { churchId := "ch1" }
    { id := some "f1", amount := 10 } dbGw (by decide)⟩

end GivingApi
